import Mathlib

/-!
Verification development for the dorado-scheduling mission-configuration
module (`dorado/scheduling/mission.py`).

The embedding follows the source file: the `Mission` dataclass, its
`overhead` and `get_field_of_regard` methods, and the three predefined
mission configurations `dorado`, `ultrasat`, `uvex` are translated from
`mission.py`.  The helpers that `mission.py` imports from sibling modules
(`_slew.slew_time`, `_slew.slew_separation`, the constraint classes and
the module-level `get_field_of_regard` from `constraints.py`, `FOV` from
`fov.py`, `Orbit`/`TLE`/`Spice` from `orbit.py`) are not part of the
excerpt, so they are modelled from the specification, as marked in their
doc comments.  Angles are real numbers (degrees), times and durations are
real numbers (seconds), and sky directions / pointing centers are vectors
in three-dimensional space understood as unit vectors on the celestial
sphere.
-/

/-- Sky directions, pointing centers and spacecraft positions are
three-dimensional real vectors. -/
abbrev V3 : Type := ℝ × ℝ × ℝ

/-- Euclidean dot product on `V3`; for unit vectors its arccos is the
great-circle separation. -/
def dot (a b : V3) : ℝ := a.1 * b.1 + a.2.1 * b.2.1 + a.2.2 * b.2.2

/-- Modelled from the spec: `_slew.slew_separation` is missing from the
excerpt.  The spec defines `angular_separation(center_a, center_b)` as the
shortest great-circle arc between the two pointings; on unit vectors this
is the arccos of the dot product. -/
noncomputable def slew_separation (a b : V3) : ℝ := Real.arccos (dot a b)

/-- Modelled from the spec: `_slew.slew_time` is missing from the excerpt.
The spec gives the bounded-acceleration, bounded-velocity kinematic bound:
with `d_acc = max_velocity^2 / (2 * max_acceleration)`, a separation of at
most `2 * d_acc` follows the triangular profile
`2 * sqrt(separation / max_acceleration)`, and otherwise the trapezoidal
profile `separation / max_velocity + max_velocity / max_acceleration`. -/
noncomputable def slew_time (separation max_velocity max_acceleration : ℝ) : ℝ :=
  if separation ≤ 2 * (max_velocity ^ 2 / (2 * max_acceleration)) then
    2 * Real.sqrt (separation / max_acceleration)
  else
    separation / max_velocity + max_velocity / max_acceleration

/-- Modelled from the spec: `orbit.py` is missing from the excerpt.  An
orbit is either a two-line-element record (`TLE`, identified by the file
it was read from, as built by `_read_orbit`) or an ephemeris-kernel lookup
(`Spice`, a body name plus kernel resource locators). -/
inductive Orbit : Type
  | tle (filename : String)
  | spice (body : String) (kernels : List String)

/-- Modelled from the spec: `fov.py` is missing from the excerpt.  A field
of view is a rectangular footprint described by two half-widths. -/
structure FOV : Type where
  halfWidth : ℝ
  halfHeight : ℝ

/-- Modelled from the spec: `FOV.from_rectangle(width)` constructs a
square footprint with half-widths derived from `width`. -/
noncomputable def FOV.from_rectangle (width : ℝ) : FOV := ⟨width / 2, width / 2⟩

/-- Particle species of a trapped-particle flux constraint; the source
passes `'p'` or `'e'`. -/
inductive Particle : Type
  | proton
  | electron

/-- Solar-activity regime of a trapped-particle flux constraint; the
source passes `'min'` or `'max'`. -/
inductive SolarActivity : Type
  | solarMin
  | solarMax

/-- The closed family of observing constraints used by `mission.py`:
trapped-particle flux (flux per cm² per s, energy in MeV), bright Earth
limb, Earth limb, Sun separation, Moon separation and galactic latitude,
each carrying only its own thresholds (angles in degrees). -/
inductive Constraint : Type
  | trappedParticleFlux (flux energy : ℝ) (particle : Particle) (solar : SolarActivity)
  | brightEarthLimb (angle : ℝ)
  | earthLimb (angle : ℝ)
  | sunSeparation (angle : ℝ)
  | moonSeparation (angle : ℝ)
  | galacticLatitude (angle : ℝ)

/-- Opaque astronomical services the spec treats as non-goals: orbit
propagation ("given times, return spacecraft position"), the
radiation-belt flux model ("an opaque lookup table keyed by
position/energy/particle/solar-activity"), and the Earth/Sun/Moon/galactic
geometry each constraint consults. -/
structure Env : Type where
  position : Orbit → ℝ → V3
  fluxModel : V3 → ℝ → Particle → SolarActivity → ℝ
  earthCenterDir : V3 → V3
  earthAngRadius : V3 → ℝ
  facingSunlit : V3 → ℝ → V3 → Bool
  sunDir : ℝ → V3
  moonDir : ℝ → V3
  galacticLat : V3 → ℝ

/-- Modelled from the spec: the constraint classes' `evaluate` methods
live in `constraints.py`, missing from the excerpt.  Each variant is a
pure function of the spacecraft state, time and sky direction returning
`true` when observation is permitted: trapped-particle flux forbids all
directions at a time step whose modeled flux exceeds the threshold; the
Earth-limb constraints forbid directions within the apparent Earth radius
plus a margin of the Earth-center direction (the bright variant applying
the margin only toward the sunlit limb); Sun/Moon separation forbid
directions within the threshold angle of the body; galactic latitude
forbids directions whose absolute galactic latitude is below the
threshold. -/
noncomputable def Constraint.evaluate (env : Env) (orbit : Orbit) (c : Constraint)
    (t : ℝ) (d : V3) : Bool :=
  match c with
  | .trappedParticleFlux flux energy particle solar =>
      decide (env.fluxModel (env.position orbit t) energy particle solar ≤ flux)
  | .brightEarthLimb angle =>
      let pos := env.position orbit t
      let margin := if env.facingSunlit pos t d then angle else 0
      decide (¬ slew_separation d (env.earthCenterDir pos) < env.earthAngRadius pos + margin)
  | .earthLimb angle =>
      let pos := env.position orbit t
      decide (¬ slew_separation d (env.earthCenterDir pos) < env.earthAngRadius pos + angle)
  | .sunSeparation angle => decide (¬ slew_separation d (env.sunDir t) < angle)
  | .moonSeparation angle => decide (¬ slew_separation d (env.moonDir t) < angle)
  | .galacticLatitude angle => decide (¬ |env.galacticLat d| < angle)

/-- Modelled from the spec: the module-level `get_field_of_regard` lives
in `constraints.py`, missing from the excerpt.  The combination rule is
the elementwise AND over all constraints: the cell at (time, direction)
is `true` iff every constraint permits that direction at that time. -/
noncomputable def get_field_of_regard (env : Env) (orbit : Orbit)
    (constraints : List Constraint) (times : List ℝ) (dirs : List V3) :
    List (List Bool) :=
  times.map fun t => dirs.map fun d => constraints.all fun c => c.evaluate env orbit t d

/-- The `Mission` dataclass of `mission.py`: an observing-constraint
collection, a field of view, an orbit, and the three slew/overhead
parameters.  The source declares it with `@dataclass` (not frozen) and no
`__post_init__`, so construction stores the given values verbatim with no
validation. -/
structure Mission : Type where
  constraints : List Constraint
  fov : FOV
  orbit : Orbit
  min_overhead : ℝ
  max_angular_velocity : ℝ
  max_angular_acceleration : ℝ

/-- Definitional alias for the module-level `get_field_of_regard`, needed
to refer to it inside the `Mission` namespace where the method of the same
name would otherwise shadow it. -/
noncomputable def moduleGetFieldOfRegard :
    Env → Orbit → List Constraint → List ℝ → List V3 → List (List Bool) :=
  get_field_of_regard

/-- `Mission.get_field_of_regard` from `mission.py`: delegates to the
module-level `get_field_of_regard` with the mission's orbit and
constraints, passing all further arguments through unchanged. -/
noncomputable def Mission.get_field_of_regard (m : Mission) (env : Env)
    (times : List ℝ) (dirs : List V3) : List (List Bool) :=
  moduleGetFieldOfRegard env m.orbit m.constraints times dirs

/-- `Mission.overhead` from `mission.py`:
`np.maximum(min_overhead, slew_time(slew_separation(a, b), max_angular_velocity, max_angular_acceleration))`. -/
noncomputable def Mission.overhead (m : Mission) (a b : V3) : ℝ :=
  max m.min_overhead
    (slew_time (slew_separation a b) m.max_angular_velocity m.max_angular_acceleration)

/-- The `dorado` mission configuration literal from `mission.py` (fluxes
in cm⁻²s⁻¹, energies in MeV, angles in degrees, rates in deg/s and
deg/s²). -/
noncomputable def dorado : Mission where
  constraints :=
    [Constraint.trappedParticleFlux 1 20 Particle.proton SolarActivity.solarMax,
     Constraint.trappedParticleFlux 100 1 Particle.electron SolarActivity.solarMax,
     Constraint.brightEarthLimb 28,
     Constraint.earthLimb 6,
     Constraint.sunSeparation 46,
     Constraint.moonSeparation 23,
     Constraint.galacticLatitude 10]
  fov := FOV.from_rectangle 7.1
  orbit := Orbit.tle ("dorado-625km-sunsync.tle")
  min_overhead := 0
  max_angular_velocity := 0.872
  max_angular_acceleration := 0.244

/-- The `ultrasat` mission configuration literal from `mission.py`. -/
noncomputable def ultrasat : Mission where
  constraints :=
    [Constraint.earthLimb 28,
     Constraint.sunSeparation 46,
     Constraint.moonSeparation 23,
     Constraint.galacticLatitude 10]
  fov := FOV.from_rectangle 14.1
  orbit := Orbit.tle ("goes17.tle")
  min_overhead := 0
  max_angular_velocity := 0.872
  max_angular_acceleration := 0.244

/-- The `uvex` mission configuration literal from `mission.py`. -/
noncomputable def uvex : Mission where
  constraints :=
    [Constraint.earthLimb 25,
     Constraint.sunSeparation 46,
     Constraint.moonSeparation 25]
  fov := FOV.from_rectangle 3.3
  orbit := Orbit.spice ("MGS SIMULATION")
    ["https://archive.stsci.edu/missions/tess/models/TESS_EPH_PRE_LONG_2021252_21.bsp",
     "https://naif.jpl.nasa.gov/pub/naif/generic_kernels/pck/earth_latest_high_prec.bpc",
     "https://naif.jpl.nasa.gov/pub/naif/generic_kernels/pck/pck00010.tpc"]
  min_overhead := 0
  max_angular_velocity := 0.872
  max_angular_acceleration := 0.244

/-- The invariant the spec asserts of every constructed `Mission`: both
slew rates strictly positive and the minimum overhead non-negative. -/
def MissionInvariant (m : Mission) : Prop :=
  0 < m.max_angular_velocity ∧ 0 < m.max_angular_acceleration ∧ 0 ≤ m.min_overhead

/-- A `Mission` built, through the ordinary dataclass constructor, with a
zero maximum angular velocity, a negative maximum angular acceleration and
a negative minimum overhead; `mission.py` contains no validation that
would reject it. -/
noncomputable def invalidMission : Mission where
  constraints := []
  fov := FOV.from_rectangle 1
  orbit := Orbit.tle ("invalid.tle")
  min_overhead := -1
  max_angular_velocity := 0
  max_angular_acceleration := -1

/-- Python permits attribute assignment on a non-frozen dataclass; this
models the statement `m.min_overhead = x` on a `Mission`, which
`@dataclass` (without `frozen=True`) accepts. -/
def Mission.set_min_overhead (m : Mission) (x : ℝ) : Mission :=
  { m with min_overhead := x }

/-- State-passing embedding of the `Mission.overhead` method: the body
reads `self`'s fields and returns a value, containing no assignment to
`self`, so the method returns its result together with the unchanged
mission state. -/
noncomputable def Mission.overheadSt (m : Mission) (a b : V3) : ℝ × Mission :=
  (m.overhead a b, m)

/-- State-passing embedding of the `Mission.get_field_of_regard` method:
the body reads `self.orbit` and `self.constraints` and returns the
delegated result, containing no assignment to `self`. -/
noncomputable def Mission.getFieldOfRegardSt (m : Mission) (env : Env)
    (times : List ℝ) (dirs : List V3) : List (List Bool) × Mission :=
  (m.get_field_of_regard env times dirs, m)

lemma list_all_perm {α : Type} {l1 l2 : List α} (h : List.Perm l1 l2) (p : α → Bool) :
    l1.all p = l2.all p := by
  induction h with
  | nil => rfl
  | cons x _ ih => simp only [List.all_cons, ih]
  | swap x y l => simp only [List.all_cons, ← Bool.and_assoc, Bool.and_comm (p y) (p x)]
  | trans _ _ ih1 ih2 => rw [ih1, ih2]

lemma slew_separation_nonneg (a b : V3) : 0 ≤ slew_separation a b :=
  Real.arccos_nonneg _

lemma slew_time_nonneg (s v a : ℝ) (hs : 0 ≤ s) (hv : 0 < v) (ha : 0 < a) :
    0 ≤ slew_time s v a := by
  unfold slew_time
  split_ifs with h
  · have := Real.sqrt_nonneg (s / a)
    linarith
  · have h1 : 0 ≤ s / v := div_nonneg hs hv.le
    have h2 : 0 ≤ v / a := div_nonneg hv.le ha.le
    linarith

lemma slew_time_zero (v a : ℝ) (hv : 0 < v) (ha : 0 < a) : slew_time 0 v a = 0 := by
  unfold slew_time
  rw [if_pos (by positivity)]
  simp [zero_div]

/-- C1: `Mission.overhead(a, b)` is exactly the maximum of the mission's
`min_overhead` and the slew time of the angular separation of the two
centers at the mission's own maximum angular velocity and acceleration. -/
theorem mission_overhead_formula (m : Mission) (a b : V3) :
    m.overhead a b =
      max m.min_overhead
        (slew_time (slew_separation a b) m.max_angular_velocity m.max_angular_acceleration) :=
  rfl

/-- C2 counterexample: the claim that every successfully constructed
`Mission` satisfies the strict-positivity invariant is false: the
dataclass constructor accepts `invalidMission`'s parameters (zero
velocity, negative acceleration, negative overhead) and the resulting
mission violates the invariant. -/
theorem mission_invariant_can_fail : ¬ MissionInvariant invalidMission := by
  intro h
  have := h.1
  norm_num [invalidMission] at this

/-- C2 amended: `Mission` construction performs no validation: the
constructor accepts arbitrary parameter values and stores them verbatim
(there is no `ConfigurationError` and no invariant check in
`mission.py`), so constructed missions need not satisfy the positivity
invariant. -/
theorem mission_construction_unvalidated :
    (∀ (cs : List Constraint) (f : FOV) (o : Orbit) (mo v acc : ℝ),
      (Mission.mk cs f o mo v acc).constraints = cs ∧
      (Mission.mk cs f o mo v acc).fov = f ∧
      (Mission.mk cs f o mo v acc).orbit = o ∧
      (Mission.mk cs f o mo v acc).min_overhead = mo ∧
      (Mission.mk cs f o mo v acc).max_angular_velocity = v ∧
      (Mission.mk cs f o mo v acc).max_angular_acceleration = acc) ∧
    ¬ MissionInvariant invalidMission := by
  constructor
  · intro cs f o mo v acc
    exact ⟨rfl, rfl, rfl, rfl, rfl, rfl⟩
  · intro h
    have := h.1
    norm_num [invalidMission] at this

/-- C3 counterexample: `Mission` is not an immutable record: it is a
plain (non-frozen) dataclass, so assigning `min_overhead` on the `dorado`
mission succeeds and changes the field's value. -/
theorem mission_field_mutation_possible :
    (dorado.set_min_overhead 5).min_overhead ≠ dorado.min_overhead := by
  show (5 : ℝ) ≠ dorado.min_overhead
  show (5 : ℝ) ≠ 0
  norm_num

/-- C3 amended: `Mission` is a plain non-frozen dataclass, so its fields
can be reassigned after construction (assignment to `min_overhead` stores
the new value and leaves the other fields alone); the exposed operations
`get_field_of_regard` and `overhead`, however, only read the fields and
leave the mission state entirely unchanged. -/
theorem mission_operations_do_not_mutate :
    (∀ (m : Mission) (a b : V3), (m.overheadSt a b).2 = m) ∧
    (∀ (m : Mission) (env : Env) (times : List ℝ) (dirs : List V3),
      (m.getFieldOfRegardSt env times dirs).2 = m) ∧
    (∀ (m : Mission) (x : ℝ),
      (m.set_min_overhead x).min_overhead = x ∧
      (m.set_min_overhead x).max_angular_velocity = m.max_angular_velocity ∧
      (m.set_min_overhead x).max_angular_acceleration = m.max_angular_acceleration ∧
      (m.set_min_overhead x).constraints = m.constraints) := by
  refine ⟨fun m a b => rfl, fun m env times dirs => rfl, fun m x => ⟨rfl, rfl, rfl, rfl⟩⟩

/-- C4: for a non-negative separation and positive velocity and
acceleration bounds, `slew_time` follows the triangular profile
`2 * sqrt(separation / max_acceleration)` when the separation is at most
`2 * d_acc` with `d_acc = max_velocity^2 / (2 * max_acceleration)`, and
the trapezoidal profile
`separation / max_velocity + max_velocity / max_acceleration` otherwise. -/
theorem slew_time_two_branches (s v a : ℝ) (hs : 0 ≤ s) (hv : 0 < v) (ha : 0 < a) :
    slew_time s v a =
      if s ≤ 2 * (v ^ 2 / (2 * a)) then 2 * Real.sqrt (s / a)
      else s / v + v / a :=
  rfl

/-- C4 witness: at separation 4, unit velocity and unit acceleration the
hypotheses hold and the branch formula applies. -/
theorem slew_time_two_branches_witness :
    (0 : ℝ) ≤ 4 ∧ (0 : ℝ) < 1 ∧
      slew_time 4 1 1 =
        if (4 : ℝ) ≤ 2 * ((1 : ℝ) ^ 2 / (2 * 1)) then 2 * Real.sqrt (4 / 1)
        else 4 / 1 + 1 / 1 :=
  ⟨by norm_num, by norm_num,
    slew_time_two_branches 4 1 1 (by norm_num) (by norm_num) (by norm_num)⟩

/-- C5: a zero-separation slew still incurs the fixed floor: for a unit
pointing center and a mission with non-negative minimum overhead and
positive slew bounds, `overhead(c, c) = min_overhead`. -/
theorem mission_overhead_self (m : Mission) (c : V3) (hc : dot c c = 1)
    (h0 : 0 ≤ m.min_overhead) (hv : 0 < m.max_angular_velocity)
    (ha : 0 < m.max_angular_acceleration) :
    m.overhead c c = m.min_overhead := by
  have hsep : slew_separation c c = 0 := by
    unfold slew_separation
    rw [hc, Real.arccos_one]
  unfold Mission.overhead
  rw [hsep, slew_time_zero _ _ hv ha, max_eq_left h0]

/-- C5 witness: the `dorado` mission and the unit pointing (1,0,0)
satisfy the hypotheses, and the overhead of the zero-separation slew is
the mission's minimum overhead. -/
theorem mission_overhead_self_witness :
    dot (1, 0, 0) (1, 0, 0) = 1 ∧ 0 ≤ dorado.min_overhead ∧
      0 < dorado.max_angular_velocity ∧ 0 < dorado.max_angular_acceleration ∧
      dorado.overhead (1, 0, 0) (1, 0, 0) = dorado.min_overhead := by
  refine ⟨by norm_num [dot], ?_, ?_, ?_, ?_⟩
  · show (0 : ℝ) ≤ 0
    norm_num
  · show (0 : ℝ) < 0.872
    norm_num
  · show (0 : ℝ) < 0.244
    norm_num
  · exact mission_overhead_self dorado (1, 0, 0) (by norm_num [dot])
      (le_refl _) (by show (0 : ℝ) < 0.872; norm_num)
      (by show (0 : ℝ) < 0.244; norm_num)

/-- C6: the field of regard is invariant under permutation of the
constraint list: the AND-reduction over constraints is order-independent,
so any permutation of the constraints yields an element-for-element
identical boolean grid. -/
theorem field_of_regard_perm_invariant (env : Env) (orbit : Orbit)
    (cs cs' : List Constraint) (h : List.Perm cs cs')
    (times : List ℝ) (dirs : List V3) :
    get_field_of_regard env orbit cs times dirs =
      get_field_of_regard env orbit cs' times dirs := by
  have hfun :
      (fun t => dirs.map fun d => cs.all fun c => c.evaluate env orbit t d) =
      (fun t => dirs.map fun d => cs'.all fun c => c.evaluate env orbit t d) := by
    funext t
    congr 1
    funext d
    exact list_all_perm h _
  unfold get_field_of_regard
  rw [hfun]

/-- Concrete opaque-services instance used by witnesses. -/
def env0 : Env where
  position := fun _ _ => (1, 0, 0)
  fluxModel := fun _ _ _ _ => 0
  earthCenterDir := fun _ => (1, 0, 0)
  earthAngRadius := fun _ => 60
  facingSunlit := fun _ _ _ => false
  sunDir := fun _ => (1, 0, 0)
  moonDir := fun _ => (1, 0, 0)
  galacticLat := fun _ => 0

/-- C6 witness: swapping the two constraints of a concrete list is a
permutation, and the resulting field-of-regard grids coincide. -/
theorem field_of_regard_perm_invariant_witness :
    List.Perm [Constraint.earthLimb 6, Constraint.sunSeparation 46]
      [Constraint.sunSeparation 46, Constraint.earthLimb 6] ∧
    get_field_of_regard env0 (Orbit.tle ("t")) [Constraint.earthLimb 6, Constraint.sunSeparation 46]
        [0] [(1, 0, 0)] =
      get_field_of_regard env0 (Orbit.tle ("t")) [Constraint.sunSeparation 46, Constraint.earthLimb 6]
        [0] [(1, 0, 0)] :=
  ⟨List.Perm.swap (Constraint.sunSeparation 46) (Constraint.earthLimb 6) [],
    field_of_regard_perm_invariant env0 (Orbit.tle ("t")) _ _
      (List.Perm.swap (Constraint.sunSeparation 46) (Constraint.earthLimb 6) []) [0] [(1, 0, 0)]⟩

/-- C8: `TrappedParticleFluxConstraint.evaluate` is direction-independent:
within a single time step it produces an identical value for all sky
directions, and that value is `false` (all directions forbidden) exactly
when the modeled flux at the spacecraft position exceeds the flux
threshold. -/
theorem trapped_particle_direction_independent (env : Env) (orbit : Orbit)
    (flux energy : ℝ) (p : Particle) (s : SolarActivity) (t : ℝ) :
    (∀ d1 d2 : V3,
      Constraint.evaluate env orbit (.trappedParticleFlux flux energy p s) t d1 =
        Constraint.evaluate env orbit (.trappedParticleFlux flux energy p s) t d2) ∧
    (∀ d : V3,
      (Constraint.evaluate env orbit (.trappedParticleFlux flux energy p s) t d = false ↔
        flux < env.fluxModel (env.position orbit t) energy p s)) := by
  constructor
  · intro d1 d2
    rfl
  · intro d
    simp [Constraint.evaluate, decide_eq_false_iff_not, not_le]

/-- C7: for fixed positive velocity and acceleration bounds, `slew_time`
is non-decreasing in the separation, including across the crossover from
the triangular to the trapezoidal branch at `separation = 2 * d_acc`. -/
theorem slew_time_monotone (s1 s2 v a : ℝ) (hs1 : 0 ≤ s1) (h12 : s1 ≤ s2)
    (hv : 0 < v) (ha : 0 < a) :
    slew_time s1 v a ≤ slew_time s2 v a := by
  unfold slew_time
  have ha' : a ≠ 0 := ha.ne'
  by_cases h1 : s1 ≤ 2 * (v ^ 2 / (2 * a)) <;>
    by_cases h2 : s2 ≤ 2 * (v ^ 2 / (2 * a))
  · rw [if_pos h1, if_pos h2]
    have hdiv : s1 / a ≤ s2 / a := by gcongr
    have := Real.sqrt_le_sqrt hdiv
    linarith
  · rw [if_pos h1, if_neg h2]
    push_neg at h2
    have hva : 0 < v / a := by positivity
    have hcross : 2 * (v ^ 2 / (2 * a)) = v ^ 2 / a := by
      field_simp
      ring
    have hsq : s1 / a ≤ (v / a) ^ 2 := by
      have hb : s1 ≤ v ^ 2 / a := by rw [← hcross]; exact h1
      have : s1 / a ≤ (v ^ 2 / a) / a := by gcongr
      calc s1 / a ≤ (v ^ 2 / a) / a := this
        _ = (v / a) ^ 2 := by field_simp; ring
    have step1 : Real.sqrt (s1 / a) ≤ v / a :=
      calc Real.sqrt (s1 / a) ≤ Real.sqrt ((v / a) ^ 2) := Real.sqrt_le_sqrt hsq
        _ = v / a := Real.sqrt_sq hva.le
    have h2' : v ^ 2 / a < s2 := by rw [← hcross]; exact h2
    have hvv : v * v < s2 * a := by
      have := (div_lt_iff₀ ha).mp h2'
      nlinarith
    have step2 : v / a < s2 / v := (div_lt_div_iff₀ ha hv).mpr hvv
    linarith
  · exfalso
    push_neg at h1
    linarith
  · rw [if_neg h1, if_neg h2]
    have : s1 / v ≤ s2 / v := by gcongr
    linarith

/-- C7 witness: at separations 1 and 2 with unit bounds the hypotheses
hold and the slew time is monotone. -/
theorem slew_time_monotone_witness :
    (0 : ℝ) ≤ 1 ∧ (1 : ℝ) ≤ 2 ∧ (0 : ℝ) < 1 ∧
      slew_time 1 1 1 ≤ slew_time 2 1 1 :=
  ⟨by norm_num, by norm_num, by norm_num,
    slew_time_monotone 1 2 1 1 (by norm_num) (by norm_num) (by norm_num) (by norm_num)⟩

lemma overhead_eq_slew_of_zero_floor (m : Mission) (h0 : m.min_overhead = 0)
    (hv : 0 < m.max_angular_velocity) (ha : 0 < m.max_angular_acceleration)
    (a b : V3) :
    m.overhead a b =
      slew_time (slew_separation a b) m.max_angular_velocity m.max_angular_acceleration := by
  unfold Mission.overhead
  rw [h0, max_eq_right
    (slew_time_nonneg _ _ _ (slew_separation_nonneg a b) hv ha)]

/-- C9: each of the three predefined mission configurations has a minimum
overhead of exactly 0 seconds, so for these missions `overhead(a, b)` is
exactly the slew time of the angular separation at the mission's velocity
and acceleration bounds: the floor never binds because slew time is
non-negative. -/
theorem predefined_missions_zero_floor :
    dorado.min_overhead = 0 ∧ ultrasat.min_overhead = 0 ∧ uvex.min_overhead = 0 ∧
    (∀ a b : V3, dorado.overhead a b =
      slew_time (slew_separation a b) dorado.max_angular_velocity
        dorado.max_angular_acceleration) ∧
    (∀ a b : V3, ultrasat.overhead a b =
      slew_time (slew_separation a b) ultrasat.max_angular_velocity
        ultrasat.max_angular_acceleration) ∧
    (∀ a b : V3, uvex.overhead a b =
      slew_time (slew_separation a b) uvex.max_angular_velocity
        uvex.max_angular_acceleration) := by
  have hv : (0 : ℝ) < 0.872 := by norm_num
  have ha : (0 : ℝ) < 0.244 := by norm_num
  exact ⟨rfl, rfl, rfl,
    fun a b => overhead_eq_slew_of_zero_floor dorado rfl hv ha a b,
    fun a b => overhead_eq_slew_of_zero_floor ultrasat rfl hv ha a b,
    fun a b => overhead_eq_slew_of_zero_floor uvex rfl hv ha a b⟩

/-- C10: `Mission.get_field_of_regard` is a pure delegation to the
module-level `get_field_of_regard` applied to the mission's orbit and
constraint list, with all further arguments passed through unchanged. -/
theorem mission_get_field_of_regard_delegates (m : Mission) (env : Env)
    (times : List ℝ) (dirs : List V3) :
    m.get_field_of_regard env times dirs =
      get_field_of_regard env m.orbit m.constraints times dirs :=
  rfl
